import Mathlib

/-!
Verification of the Time_Tracker aggregation core.

Shallow embedding of `src/datetimefuncs.py` and `src/dbsanddfs.py`:
  * timestamps are modelled as integer seconds since 1970-01-01 00:00:00
    (the store's datetimes, at second granularity);
  * calendar dates are day numbers since 1970-01-01 (a Thursday);
  * Python's `/` on ints followed by `floor` is modelled as exact rational
    division and floor, i.e. `Int.fdiv`; Python's `%` is `Int.emod`;
  * a pandas DataFrame built from an empty row list has no columns, so a
    subsequent column access raises `KeyError`; this is modelled by an
    explicit `Except DFError` result.
-/

namespace TimeTracker

/-! ### Decimal rendering of Python's format specifier `{x:02}` -/

def digitChar (n : Nat) : Char := Char.ofNat (48 + n)

/-- Decimal digits of `n`, most significant first; `fuel` bounds recursion. -/
def natDigitsAux : Nat → Nat → List Char
  | 0, _ => []
  | fuel + 1, n =>
    if n < 10 then [digitChar n]
    else natDigitsAux fuel (n / 10) ++ [digitChar (n % 10)]

def natDigits (n : Nat) : List Char := natDigitsAux (n + 1) n

/-- Python `f-string` formatting with spec `02`: zero-pad to a minimum
width of two characters; a sign character counts toward the width, and
numbers needing more than two characters are printed in full. -/
def pyFormat02 (x : Int) : String :=
  if x < 0 then String.mk ('-' :: natDigits (-x).toNat)
  else if x < 10 then String.mk ['0', digitChar x.toNat]
  else String.mk (natDigits x.toNat)

/-! ### `src/datetimefuncs.py`, class `TimerFuncs` -/

/-- `formatted_time`: `hours = floor(ts/60/60) % 24`, `minutes =
floor(ts/60) % 60`, `seconds = ts % 60`, rendered `f'{h:02}:{m:02}:{s:02}'`.
`floor(ts/60/60)` over exact arithmetic is `Int.fdiv ts 3600`. -/
def formatted_time (total_seconds : Int) : String :=
  let hours : Int := (total_seconds.fdiv 3600).emod 24
  let minutes : Int := (total_seconds.fdiv 60).emod 60
  let seconds : Int := total_seconds.emod 60
  pyFormat02 hours ++ ":" ++ pyFormat02 minutes ++ ":" ++ pyFormat02 seconds

/-- `get_total_seconds`: `hours * 3600 + minutes * 60 + seconds`. -/
def get_total_seconds (hours minutes seconds : Int) : Int :=
  hours * 3600 + minutes * 60 + seconds

/-- The three numeric fields computed by `get_time_hms`:
`hours = floor(ts/60/60)` (no modulo), `minutes = floor(ts/60) % 60`,
`seconds = ts % 60`. -/
def get_time_hms_fields (total_seconds : Int) : Int × Int × Int :=
  (total_seconds.fdiv 3600, (total_seconds.fdiv 60).emod 60, total_seconds.emod 60)

/-- `get_time_hms`: unrestricted-hours formatting `f'{h:02}:{m:02}:{s:02}'`. -/
def get_time_hms (total_seconds : Int) : String :=
  let f := get_time_hms_fields total_seconds
  pyFormat02 f.1 ++ ":" ++ pyFormat02 f.2.1 ++ ":" ++ pyFormat02 f.2.2

/-! ### `src/datetimefuncs.py`, class `TimeDeltaDays`

`date.today()` is ambient state; it is passed explicitly as the day
number `today`. -/

def last_seven_days (today : Int) : Int := today - 7

def last_thirty_days (today : Int) : Int := today - 30

/-! ### Helper lemmas about decimal rendering -/

/-- Reading a digit list back as a number (most significant first). -/
def parseDigits (l : List Char) : Nat :=
  l.foldl (fun a c => a * 10 + (c.toNat - 48)) 0

/-- Render of a value below ten, at any positive fuel. -/
lemma natDigitsAux_lt_ten {fuel n : Nat} (hf : 0 < fuel) (hn : n < 10) :
    natDigitsAux fuel n = [digitChar n] := by
  cases fuel with
  | zero => omega
  | succ f => simp [natDigitsAux, hn]

lemma parseDigits_append_digit (l : List Char) (c : Char) :
    parseDigits (l ++ [c]) = parseDigits l * 10 + (c.toNat - 48) := by
  simp [parseDigits, List.foldl_append]

lemma digitChar_toNat {n : Nat} (h : n < 10) : (digitChar n).toNat = 48 + n := by
  interval_cases n <;> decide

lemma digitChar_isDigit {n : Nat} (h : n < 10) : (digitChar n).isDigit = true := by
  interval_cases n <;> decide

lemma parseDigits_natDigitsAux :
    ∀ fuel n, n < fuel → parseDigits (natDigitsAux fuel n) = n := by
  intro fuel
  induction fuel with
  | zero => intro n h; omega
  | succ f ih =>
    intro n h
    by_cases h10 : n < 10
    · simp [natDigitsAux, h10, parseDigits, digitChar_toNat h10]
    · have hdiv : n / 10 < f := by
        have h1 : n / 10 < n := Nat.div_lt_self (by omega) (by omega)
        omega
      have hmod : n % 10 < 10 := Nat.mod_lt _ (by omega)
      simp only [natDigitsAux, h10, if_false]
      rw [parseDigits_append_digit, ih _ hdiv, digitChar_toNat hmod]
      omega

lemma parseDigits_natDigits (n : Nat) : parseDigits (natDigits n) = n :=
  parseDigits_natDigitsAux (n + 1) n (Nat.lt_succ_self n)

lemma natDigitsAux_isDigit :
    ∀ fuel n, n < fuel → ∀ c ∈ natDigitsAux fuel n, c.isDigit = true := by
  intro fuel
  induction fuel with
  | zero => intro n h; omega
  | succ f ih =>
    intro n h c hc
    by_cases h10 : n < 10
    · simp [natDigitsAux, h10] at hc
      subst hc; exact digitChar_isDigit h10
    · have hdiv : n / 10 < f := by
        have h1 : n / 10 < n := Nat.div_lt_self (by omega) (by omega)
        omega
      simp only [natDigitsAux, h10, if_false, List.mem_append, List.mem_singleton] at hc
      rcases hc with hc | hc
      · exact ih _ hdiv c hc
      · subst hc; exact digitChar_isDigit (Nat.mod_lt _ (by omega))

lemma natDigits_isDigit (n : Nat) : ∀ c ∈ natDigits n, c.isDigit = true :=
  natDigitsAux_isDigit (n + 1) n (Nat.lt_succ_self n)

lemma natDigitsAux_ne_nil :
    ∀ fuel n, n < fuel → natDigitsAux fuel n ≠ [] := by
  intro fuel
  induction fuel with
  | zero => intro n h; omega
  | succ f _ =>
    intro n _
    by_cases h10 : n < 10 <;> simp [natDigitsAux, h10]

/-- The exact two characters written for a value in `[0, 100)`. -/
def twoDigit (n : Nat) : List Char := [digitChar (n / 10), digitChar (n % 10)]

lemma twoDigit_isDigit {n : Nat} (h : n < 100) : ∀ c ∈ twoDigit n, c.isDigit = true := by
  intro c hc
  have h1 : n / 10 < 10 := Nat.div_lt_of_lt_mul (by omega)
  have h2 : n % 10 < 10 := Nat.mod_lt _ (by omega)
  simp [twoDigit] at hc
  rcases hc with hc | hc <;> subst hc
  · exact digitChar_isDigit h1
  · exact digitChar_isDigit h2

lemma pyFormat02_eq_twoDigit {x : Int} (h0 : 0 ≤ x) (h : x < 100) :
    pyFormat02 x = String.mk (twoDigit x.toNat) := by
  by_cases h10 : x < 10
  · have hx0 : ¬ x < 0 := by omega
    have hdiv : x.toNat / 10 = 0 := Nat.div_eq_of_lt (by omega)
    have hmod : x.toNat % 10 = x.toNat := Nat.mod_eq_of_lt (by omega)
    have hd0 : digitChar 0 = '0' := by decide
    simp [pyFormat02, hx0, h10, twoDigit, hdiv, hmod, hd0]
  · have hx0 : ¬ x < 0 := by omega
    have hge : 10 ≤ x.toNat := by omega
    have hlt : x.toNat < 100 := by omega
    have hdivlt : x.toNat / 10 < 10 := Nat.div_lt_of_lt_mul (by omega)
    simp only [pyFormat02, hx0, if_false, h10]
    congr 1
    have hfuel : 0 < x.toNat := by omega
    show natDigitsAux (x.toNat + 1) x.toNat = twoDigit x.toNat
    have : ¬ x.toNat < 10 := by omega
    rw [natDigitsAux]
    · simp only [this, if_false]
      rw [natDigitsAux_lt_ten (by omega) hdivlt]
      rfl

/-! ### Calendar arithmetic

Day numbers count days since 1970-01-01 (a Thursday). A timestamp's
calendar date is the floor of its division by 86400 seconds; the pandas
weekday index is Monday = 0. -/

def dateOf (ts : Int) : Int := ts.fdiv 86400

def weekdayIdx (day : Int) : Int := (day + 3) % 7

def dayNamesList : List String :=
  ["Monday", "Tuesday", "Wednesday", "Thursday", "Friday", "Saturday", "Sunday"]

def dayName (day : Int) : String := dayNamesList.getD (weekdayIdx day).toNat ""

/-! ### Data model (`src/dbsanddfs.py`, class `SQLAlchemyDB`)

The `comments` column is never read by the aggregation engine and is
omitted. -/

structure CategoryRow where
  id : Int
  activity : String
  grouping : String
deriving DecidableEq, Repr

structure LogRow where
  id : Int
  taskid : Int
  start : Int
  stop : Int
deriving DecidableEq, Repr

structure Store where
  category : List CategoryRow
  log : List LogRow
deriving DecidableEq, Repr

/-- `delete_activity`: delete every category row whose `(activity, grouping)`
pair matches the arguments. -/
def delete_activity (activity grouping : String) (s : Store) : Store :=
  { s with category :=
      s.category.filter fun c => !(c.activity == activity && c.grouping == grouping) }

/-! ### `AnalysisGraphDFs.get_log_df` -/

/-- One row of the SQL join `select log.id, category.activity,
category.grouping, log.start, log.stop where log.taskid == category.id`. -/
structure JoinedRow where
  id : Int
  activity : String
  grouping : String
  start : Int
  stop : Int
deriving DecidableEq, Repr

/-- The join result. SQL leaves the row order unspecified; we fix the
natural nested-loop order, log rows outermost. No claim depends on the
order of the pre-aggregation rows. -/
def joinedRows (s : Store) : List JoinedRow :=
  s.log.flatMap fun l =>
    (s.category.filter fun c => l.taskid == c.id).map fun c =>
      { id := l.id, activity := c.activity, grouping := c.grouping,
        start := l.start, stop := l.stop }

/-- A joined row plus the derived columns added by `get_log_df`. -/
structure EnrichedRow where
  id : Int
  activity : String
  grouping : String
  start : Int
  stop : Int
  duration : Int
  date : Int
  dayOfWeek : String
  seconds_duration : Int
deriving DecidableEq, Repr

/-- The derived-column computation of `get_log_df`. `duration` is
`stop - start`; at second granularity `round(duration / 1s)` is exactly
`stop - start` again, stored as `seconds_duration`. -/
def enrichRows (l : List JoinedRow) : List EnrichedRow :=
  l.map fun r =>
    { id := r.id, activity := r.activity, grouping := r.grouping,
      start := r.start, stop := r.stop,
      duration := r.stop - r.start,
      date := dateOf r.start,
      dayOfWeek := dayName (dateOf r.start),
      seconds_duration := r.stop - r.start }

/-- Failure of a pandas column access. -/
inductive DFError where
  | keyError
deriving DecidableEq, Repr

/-- `get_log_df`. `pd.DataFrame` over an empty row list produces a frame
with no columns, so the first column access `df['stop']` raises
`KeyError`; with at least one row the named columns exist and the
derived columns are computed per `enrichRows`. -/
def get_log_df (s : Store) : Except DFError (List EnrichedRow) :=
  if (joinedRows s).isEmpty then .error .keyError
  else .ok (enrichRows (joinedRows s))

/-! ### Sorting and grouping (pandas `groupby(..., as_index=False)`,
which sorts by the group keys) -/

def insertBy (le : α → α → Bool) (x : α) : List α → List α
  | [] => [x]
  | y :: ys => if le x y then x :: y :: ys else y :: insertBy le x ys

def sortBy (le : α → α → Bool) : List α → List α
  | [] => []
  | x :: xs => insertBy le x (sortBy le xs)

def dedupAdj [DecidableEq α] : List α → List α
  | [] => []
  | [x] => [x]
  | x :: y :: ys => if x = y then dedupAdj (y :: ys) else x :: dedupAdj (y :: ys)

/-- Lexicographic order on `(date, DayOfWeek)` group keys. -/
def pairLe (a b : Int × String) : Bool :=
  a.1 < b.1 || (a.1 == b.1 && (a.2 == b.2 || a.2 < b.2))

def intLe (a b : Int) : Bool := a ≤ b

def strPairLe (a b : String × String) : Bool :=
  a.1 < b.1 || (a.1 == b.1 && (a.2 == b.2 || a.2 < b.2))

/-- The sorted distinct `(date, DayOfWeek)` group keys of an enriched frame. -/
def groupKeysDW (rows : List EnrichedRow) : List (Int × String) :=
  dedupAdj (sortBy pairLe (rows.map fun r => (r.date, r.dayOfWeek)))

/-- Total of `seconds_duration` over the rows of one `(date, DayOfWeek)` group. -/
def sumSeconds (rows : List EnrichedRow) (k : Int × String) : Int :=
  ((rows.filter fun r => (r.date, r.dayOfWeek) == k).map fun r => r.seconds_duration).sum

/-! ### Weekday categorical reordering

`astype('category')` makes the column's categories its distinct values;
`cat.reorder_categories([Monday..Sunday], ordered=True)` raises
`ValueError` unless the new list is a permutation of those categories,
i.e. unless all seven weekday names occur among the values. Either way
the rows of the frame are unchanged — only category metadata moves — and
the source wraps the call in `try/except ValueError`. -/
def reorderWeekdayCats (vals : List String) : Except String Unit :=
  if dayNamesList.all (fun w => vals.contains w) && vals.all (fun v => dayNamesList.contains v)
  then .ok ()
  else .error "items in new_categories are not the same as in old categories"

/-- The source's `try: ... reorder_categories ... except ValueError as e:
print(e)`. The reordering only rewrites category metadata of the column,
so the frame value `a` is the same in the success and the caught-error
branch. -/
def tryReorder (vals : List String) (a : α) : α :=
  match reorderWeekdayCats vals with
  | .ok _ => a
  | .error _ => a

/-! ### `AnalysisGraphDFs.get_df_log_summary` (daily summary) -/

structure DailyRow where
  date : Int
  dayOfWeek : String
  hms_duration : String
deriving DecidableEq, Repr

/-- The populated daily buckets: one row per `(date, DayOfWeek)` group,
total formatted by `get_time_hms`. -/
def dailyBuckets (rows : List EnrichedRow) : List DailyRow :=
  (groupKeysDW rows).map fun k =>
    { date := k.1, dayOfWeek := k.2, hms_duration := get_time_hms (sumSeconds rows k) }

/-- `get_df_log_summary`: group by `(date, DayOfWeek)`, sum
`seconds_duration`, format with `get_time_hms`, then attempt the weekday
categorical reorder under `try/except ValueError` (the rows are the same
in both branches). -/
def get_df_log_summary (s : Store) : Except DFError (List DailyRow) :=
  (get_log_df s).map fun rows =>
    tryReorder ((dailyBuckets rows).map fun r => r.dayOfWeek) (dailyBuckets rows)

/-! ### `AnalysisGraphDFs.get_df_log_summary_weeks` (weekly summary) -/

structure WeekRow where
  week_start : Int
  day : String
  hms_duration : String
deriving DecidableEq, Repr

/-- `week_start` column: `start - weekday(start) days`, then `.dt.date`. -/
def weekStartOf (start : Int) : Int :=
  dateOf (start - 86400 * weekdayIdx (dateOf start))

/-- `get_df_log_summary_weeks`: group by `week_start`, sum
`seconds_duration`, format with `get_time_hms`, label constant `'Monday'`. -/
def get_df_log_summary_weeks (s : Store) : Except DFError (List WeekRow) :=
  (get_log_df s).map fun rows =>
    let ws := rows.map fun r => (weekStartOf r.start, r.seconds_duration)
    let keys := dedupAdj (sortBy intLe (ws.map fun p => p.1))
    keys.map fun k =>
      { week_start := k, day := "Monday",
        hms_duration := get_time_hms (((ws.filter fun p => p.1 == k).map fun p => p.2).sum) }

/-! ### `AnalysisGraphDFs.get_df_log_summary_months` (monthly summary) -/

/-- Civil (proleptic Gregorian) year and month of a day number since
1970-01-01, via the standard era decomposition. -/
def civilYearMonth (day : Int) : Int × Int :=
  let z := day + 719468
  let era := z.fdiv 146097
  let doe := z - era * 146097
  let yoe := (doe - doe.fdiv 1460 + doe.fdiv 36524 - doe.fdiv 146096).fdiv 365
  let doy := doe - (365 * yoe + yoe.fdiv 4 - yoe.fdiv 100)
  let mp := (5 * doy + 2).fdiv 153
  let m := mp + (if mp < 10 then 3 else -9)
  (yoe + era * 400 + (if m ≤ 2 then 1 else 0), m)

/-- Python `%Y`: zero-padded to four characters. -/
def pyFormat04 (x : Int) : String :=
  if x < 0 then String.mk ('-' :: natDigits (-x).toNat)
  else
    let ds := natDigits x.toNat
    String.mk (List.replicate (4 - ds.length) '0' ++ ds)

def monthAbbrevs : List String :=
  ["Jan", "Feb", "Mar", "Apr", "May", "Jun", "Jul", "Aug", "Sep", "Oct", "Nov", "Dec"]

/-- `strftime('%Y %m')` of a timestamp's date. -/
def yearMonthStr (ts : Int) : String :=
  let ym := civilYearMonth (dateOf ts)
  pyFormat04 ym.1 ++ " " ++ pyFormat02 ym.2

/-- `strftime('%b')` of a timestamp's date. -/
def monthNameStr (ts : Int) : String :=
  monthAbbrevs.getD ((civilYearMonth (dateOf ts)).2 - 1).toNat ""

structure MonthRow where
  year_month : String
  month_name : String
  hms_duration : String
deriving DecidableEq, Repr

/-- `get_df_log_summary_months`: group by `('%Y %m', '%b')` of the start
timestamp, sum `seconds_duration`, format with `get_time_hms`. -/
def get_df_log_summary_months (s : Store) : Except DFError (List MonthRow) :=
  (get_log_df s).map fun rows =>
    let ym := rows.map fun r => ((yearMonthStr r.start, monthNameStr r.start), r.seconds_duration)
    let keys := dedupAdj (sortBy strPairLe (ym.map fun p => p.1))
    keys.map fun k =>
      { year_month := k.1, month_name := k.2,
        hms_duration := get_time_hms (((ym.filter fun p => p.1 == k).map fun p => p.2).sum) }

/-! ### `AnalysisGraphDFs.get_df_summary` (windowed summary for plotting) -/

structure PlotRow where
  date : Int
  dayOfWeek : String
  duration : ℚ
deriving DecidableEq, Repr

/-- The unfiltered plotting buckets: one row per `(date, DayOfWeek)`
group with the summed duration converted from seconds to hours. -/
def plotBuckets (rows : List EnrichedRow) : List PlotRow :=
  (groupKeysDW rows).map fun k =>
    { date := k.1, dayOfWeek := k.2, duration := (sumSeconds rows k : ℚ) / 3600 }

/-- The date filter applied at the end of `get_df_summary`. -/
def windowFilter (today days : Int) (buckets : List PlotRow) : List PlotRow :=
  if days = 7 then buckets.filter fun r => last_seven_days today ≤ r.date
  else if days = 30 then buckets.filter fun r => last_thirty_days today ≤ r.date
  else buckets

/-- `get_df_summary(days)`: group, convert to hours, attempt the weekday
reorder under `try/except ValueError`, then filter
`date >= last_seven_days()` when `days == 7`, `date >= last_thirty_days()`
when `days == 30`, and not at all otherwise. -/
def get_df_summary (today days : Int) (s : Store) : Except DFError (List PlotRow) :=
  (get_log_df s).map fun rows =>
    windowFilter today days
      (tryReorder ((plotBuckets rows).map fun r => r.dayOfWeek) (plotBuckets rows))

/-! ### Generic facts about the sorting and grouping helpers -/

lemma mem_insertBy {le : α → α → Bool} {x y : α} :
    ∀ {l : List α}, y ∈ insertBy le x l ↔ y = x ∨ y ∈ l := by
  intro l
  induction l with
  | nil => simp [insertBy]
  | cons a as ih =>
    by_cases h : le x a
    · simp [insertBy, h]
    · simp [insertBy, h, ih]
      tauto

lemma mem_sortBy {le : α → α → Bool} {y : α} :
    ∀ {l : List α}, y ∈ sortBy le l ↔ y ∈ l := by
  intro l
  induction l with
  | nil => simp [sortBy]
  | cons a as ih => simp [sortBy, mem_insertBy, ih]

lemma mem_dedupAdj [DecidableEq α] (y : α) :
    ∀ l : List α, y ∈ dedupAdj l ↔ y ∈ l
  | [] => by simp [dedupAdj]
  | [x] => by simp [dedupAdj]
  | x :: b :: ys => by
    by_cases h : x = b
    · subst h
      rw [show dedupAdj (x :: x :: ys) = dedupAdj (x :: ys) by simp [dedupAdj]]
      rw [mem_dedupAdj y (x :: ys)]
      simp
    · rw [show dedupAdj (x :: b :: ys) = x :: dedupAdj (b :: ys) by simp [dedupAdj, h]]
      simp [mem_dedupAdj y (b :: ys)]

lemma tryReorder_eq (vals : List String) (a : α) : tryReorder vals a = a := by
  unfold tryReorder
  cases reorderWeekdayCats vals <;> rfl

lemma get_log_df_ok {s : Store} (h : joinedRows s ≠ []) :
    get_log_df s = .ok (enrichRows (joinedRows s)) := by
  unfold get_log_df
  rw [if_neg]
  simp [h]

lemma get_df_log_summary_ok {s : Store} (h : joinedRows s ≠ []) :
    get_df_log_summary s = .ok (dailyBuckets (enrichRows (joinedRows s))) := by
  unfold get_df_log_summary
  rw [get_log_df_ok h]
  simp [Except.map, tryReorder_eq]

lemma get_df_summary_ok (today days : Int) {s : Store} (h : joinedRows s ≠ []) :
    get_df_summary today days s =
      .ok (windowFilter today days (plotBuckets (enrichRows (joinedRows s)))) := by
  unfold get_df_summary
  rw [get_log_df_ok h]
  simp [Except.map, tryReorder_eq]

lemma get_df_log_summary_weeks_ok {s : Store} (h : joinedRows s ≠ []) :
    get_df_log_summary_weeks s =
      .ok (
        (dedupAdj (sortBy intLe
            (((enrichRows (joinedRows s)).map fun r =>
              (weekStartOf r.start, r.seconds_duration)).map fun p => p.1))).map fun k =>
          { week_start := k, day := "Monday",
            hms_duration := get_time_hms (((((enrichRows (joinedRows s)).map fun r =>
              (weekStartOf r.start, r.seconds_duration)).filter fun p => p.1 == k).map
                fun p => p.2).sum) }) := by
  unfold get_df_log_summary_weeks
  rw [get_log_df_ok h]
  rfl

/-! ### Shape of the formatted strings -/

lemma string_mk_append (a b : List Char) : String.mk a ++ String.mk b = String.mk (a ++ b) := rfl

lemma twoDigit_length (n : Nat) : (twoDigit n).length = 2 := rfl

lemma emod_24_bounds (x : Int) : 0 ≤ x.emod 24 ∧ x.emod 24 < 24 :=
  ⟨Int.emod_nonneg x (by norm_num), Int.emod_lt_of_pos x (by norm_num)⟩

lemma emod_60_bounds (x : Int) : 0 ≤ x.emod 60 ∧ x.emod 60 < 60 :=
  ⟨Int.emod_nonneg x (by norm_num), Int.emod_lt_of_pos x (by norm_num)⟩

/-- `formatted_time` always renders three two-digit fields. -/
lemma formatted_time_shape (s : Int) :
    formatted_time s =
      String.mk (twoDigit ((s.fdiv 3600).emod 24).toNat ++
        ':' :: twoDigit ((s.fdiv 60).emod 60).toNat ++
        ':' :: twoDigit (s.emod 60).toNat) := by
  obtain ⟨hh0, hh1⟩ := emod_24_bounds (s.fdiv 3600)
  obtain ⟨hm0, hm1⟩ := emod_60_bounds (s.fdiv 60)
  obtain ⟨hs0, hs1⟩ := emod_60_bounds s
  show pyFormat02 _ ++ ":" ++ pyFormat02 _ ++ ":" ++ pyFormat02 _ = _
  rw [pyFormat02_eq_twoDigit hh0 (by omega), pyFormat02_eq_twoDigit hm0 (by omega),
    pyFormat02_eq_twoDigit hs0 (by omega)]
  show String.mk _ ++ String.mk [':'] ++ String.mk _ ++ String.mk [':'] ++ String.mk _ = _
  rw [string_mk_append, string_mk_append, string_mk_append, string_mk_append]
  simp

/-- Claim C7: for every non-negative integer `s`, `formatted_time s` is a
string of the form two digits, colon, two digits, colon, two digits, with
hour field `s / 3600 % 24`, minute field `s / 60 % 60` and second field
`s % 60`, each zero-padded to width 2. -/
theorem c7_formatted_time_nonneg (s : Int) (_hs : 0 ≤ s) :
    formatted_time s =
      String.mk (twoDigit (s / 3600 % 24).toNat ++
        ':' :: twoDigit (s / 60 % 60).toNat ++
        ':' :: twoDigit (s % 60).toNat) ∧
    (twoDigit (s / 3600 % 24).toNat).length = 2 ∧
    (twoDigit (s / 60 % 60).toNat).length = 2 ∧
    (twoDigit (s % 60).toNat).length = 2 ∧
    (∀ c ∈ twoDigit (s / 3600 % 24).toNat, c.isDigit = true) ∧
    (∀ c ∈ twoDigit (s / 60 % 60).toNat, c.isDigit = true) ∧
    (∀ c ∈ twoDigit (s % 60).toNat, c.isDigit = true) := by
  have e1 : s.fdiv 3600 = s / 3600 := Int.fdiv_eq_ediv s (by norm_num)
  have e2 : s.fdiv 60 = s / 60 := Int.fdiv_eq_ediv s (by norm_num)
  obtain ⟨hh0, hh1⟩ := emod_24_bounds (s / 3600)
  obtain ⟨hm0, hm1⟩ := emod_60_bounds (s / 60)
  obtain ⟨hs0, hs1⟩ := emod_60_bounds s
  refine ⟨?_, rfl, rfl, rfl, twoDigit_isDigit (by omega), twoDigit_isDigit (by omega),
    twoDigit_isDigit (by omega)⟩
  have := formatted_time_shape s
  rwa [e1, e2] at this

/-- Witness for C7 at `s = 3661`. -/
theorem c7_formatted_time_nonneg_witness :
    (0 : Int) ≤ 3661 ∧
      (formatted_time 3661 =
        String.mk (twoDigit ((3661 : Int) / 3600 % 24).toNat ++
          ':' :: twoDigit ((3661 : Int) / 60 % 60).toNat ++
          ':' :: twoDigit ((3661 : Int) % 60).toNat) ∧
      (twoDigit ((3661 : Int) / 3600 % 24).toNat).length = 2 ∧
      (twoDigit ((3661 : Int) / 60 % 60).toNat).length = 2 ∧
      (twoDigit ((3661 : Int) % 60).toNat).length = 2 ∧
      (∀ c ∈ twoDigit ((3661 : Int) / 3600 % 24).toNat, c.isDigit = true) ∧
      (∀ c ∈ twoDigit ((3661 : Int) / 60 % 60).toNat, c.isDigit = true) ∧
      (∀ c ∈ twoDigit ((3661 : Int) % 60).toNat, c.isDigit = true)) :=
  ⟨by decide, c7_formatted_time_nonneg 3661 (by decide)⟩

/-- Claim C10: for every integer input, also negative ones, all three
fields of `formatted_time` are non-negative, the hour field lies in
`[0, 23]` and the minute and second fields in `[0, 59]` (Python's floor
division and modulo act mathematically on negatives), the output matches
the two-digit `HH:MM:SS` grammar, and `formatted_time (-1) = "23:59:59"`. -/
theorem c10_formatted_time_all_ints :
    (∀ s : Int, ∃ h m c : Nat,
      h < 24 ∧ m < 60 ∧ c < 60 ∧
      (h : Int) = (s.fdiv 3600).emod 24 ∧
      (m : Int) = (s.fdiv 60).emod 60 ∧
      (c : Int) = s.emod 60 ∧
      formatted_time s = String.mk (twoDigit h ++ ':' :: twoDigit m ++ ':' :: twoDigit c) ∧
      (∀ ch ∈ twoDigit h, ch.isDigit = true) ∧
      (∀ ch ∈ twoDigit m, ch.isDigit = true) ∧
      (∀ ch ∈ twoDigit c, ch.isDigit = true)) ∧
    formatted_time (-1) = "23:59:59" := by
  constructor
  · intro s
    obtain ⟨hh0, hh1⟩ := emod_24_bounds (s.fdiv 3600)
    obtain ⟨hm0, hm1⟩ := emod_60_bounds (s.fdiv 60)
    obtain ⟨hs0, hs1⟩ := emod_60_bounds s
    exact ⟨((s.fdiv 3600).emod 24).toNat, ((s.fdiv 60).emod 60).toNat, (s.emod 60).toNat,
      by omega, by omega, by omega, by omega, by omega, by omega,
      formatted_time_shape s,
      twoDigit_isDigit (by omega), twoDigit_isDigit (by omega), twoDigit_isDigit (by omega)⟩
  · decide

/-! ### The unrestricted formatter `get_time_hms` -/

lemma natDigits_length_ge_two {n : Nat} (h : 10 ≤ n) : 2 ≤ (natDigits n).length := by
  have h10 : ¬ n < 10 := by omega
  have hdiv : n / 10 < n := Nat.div_lt_self (by omega) (by omega)
  have hne : natDigitsAux n (n / 10) ≠ [] := natDigitsAux_ne_nil n (n / 10) hdiv
  have hpos : 0 < (natDigitsAux n (n / 10)).length := List.length_pos.mpr hne
  show 2 ≤ (natDigitsAux (n + 1) n).length
  simp only [natDigitsAux, h10, if_false, List.length_append, List.length_singleton]
  omega

/-- The hour part written by `pyFormat02` for a non-negative value: at
least two characters, all digits, parsing back to the value. -/
lemma pyFormat02_hour_spec {x : Int} (hx : 0 ≤ x) :
    ∃ hcs : List Char, pyFormat02 x = String.mk hcs ∧ 2 ≤ hcs.length ∧
      (∀ ch ∈ hcs, ch.isDigit = true) ∧ parseDigits hcs = x.toNat := by
  by_cases h10 : x < 10
  · refine ⟨['0', digitChar x.toNat], ?_, by norm_num, ?_, ?_⟩
    · simp [pyFormat02, h10, show ¬ x < 0 by omega]
    · intro ch hch
      simp at hch
      rcases hch with hch | hch <;> subst hch
      · decide
      · exact digitChar_isDigit (by omega)
    · simp [parseDigits, digitChar_toNat (show x.toNat < 10 by omega)]
  · refine ⟨natDigits x.toNat, ?_, natDigits_length_ge_two (by omega), natDigits_isDigit _,
      parseDigits_natDigits _⟩
    simp [pyFormat02, h10, show ¬ x < 0 by omega]

/-- Claim C8: for every non-negative integer `s`, `get_time_hms s` has an
hour field equal to `s / 3600` with no modulo wrap (read back from its
decimal digits, no truncation), minute and second fields in `[0, 59]`
zero-padded to width 2, the hour field itself at least two characters;
and 120 hours renders as `"120:00:00"`. -/
theorem c8_get_time_hms_unrestricted (s : Int) (hs : 0 ≤ s) :
    (∃ hcs : List Char,
      get_time_hms s =
        String.mk (hcs ++ ':' :: twoDigit (s / 60 % 60).toNat ++
          ':' :: twoDigit (s % 60).toNat) ∧
      2 ≤ hcs.length ∧
      (∀ ch ∈ hcs, ch.isDigit = true) ∧
      (parseDigits hcs : Int) = s / 3600 ∧
      0 ≤ s / 60 % 60 ∧ s / 60 % 60 < 60 ∧ 0 ≤ s % 60 ∧ s % 60 < 60) ∧
    get_time_hms 432000 = "120:00:00" := by
  have e1 : s.fdiv 3600 = s / 3600 := Int.fdiv_eq_ediv s (by norm_num)
  have e2 : s.fdiv 60 = s / 60 := Int.fdiv_eq_ediv s (by norm_num)
  have hh : 0 ≤ s / 3600 := Int.ediv_nonneg hs (by norm_num)
  obtain ⟨hm0, hm1⟩ := emod_60_bounds (s / 60)
  obtain ⟨hs0, hs1⟩ := emod_60_bounds s
  obtain ⟨hcs, hmk, hlen, hdig, hparse⟩ := pyFormat02_hour_spec hh
  refine ⟨⟨hcs, ?_, hlen, hdig, by omega, hm0, hm1, hs0, hs1⟩, by decide⟩
  show pyFormat02 (s.fdiv 3600) ++ ":" ++ pyFormat02 ((s.fdiv 60).emod 60) ++ ":" ++
      pyFormat02 (s.emod 60) = _
  rw [e1, e2, hmk, pyFormat02_eq_twoDigit hm0 (by omega), pyFormat02_eq_twoDigit hs0 (by omega)]
  show String.mk _ ++ String.mk [':'] ++ String.mk _ ++ String.mk [':'] ++ String.mk _ = _
  rw [string_mk_append, string_mk_append, string_mk_append, string_mk_append]
  congr 1
  simp only [List.append_assoc, List.cons_append, List.nil_append]
  rfl

/-- Witness for C8 at `s = 432000` (120 hours). -/
theorem c8_get_time_hms_unrestricted_witness :
    (0 : Int) ≤ 432000 ∧
      ((∃ hcs : List Char,
        get_time_hms 432000 =
          String.mk (hcs ++ ':' :: twoDigit ((432000 : Int) / 60 % 60).toNat ++
            ':' :: twoDigit ((432000 : Int) % 60).toNat) ∧
        2 ≤ hcs.length ∧
        (∀ ch ∈ hcs, ch.isDigit = true) ∧
        (parseDigits hcs : Int) = (432000 : Int) / 3600 ∧
        0 ≤ (432000 : Int) / 60 % 60 ∧ (432000 : Int) / 60 % 60 < 60 ∧
        0 ≤ (432000 : Int) % 60 ∧ (432000 : Int) % 60 < 60) ∧
      get_time_hms 432000 = "120:00:00") :=
  ⟨by decide, c8_get_time_hms_unrestricted 432000 (by decide)⟩

/-- Claim C9: converting `(h, m, s)` with `get_total_seconds` and then
decomposing with the arithmetic of `get_time_hms` (mod-free hours)
recovers exactly `h`, `m` and `s` when `0 ≤ h`, `0 ≤ m < 60`, `0 ≤ s < 60`. -/
theorem c9_total_seconds_round_trip (h m s : Int)
    (_hh : 0 ≤ h) (hm0 : 0 ≤ m) (hm1 : m < 60) (hs0 : 0 ≤ s) (hs1 : s < 60) :
    get_time_hms_fields (get_total_seconds h m s) = (h, m, s) := by
  have e1 : (h * 3600 + m * 60 + s).fdiv 3600 = (h * 3600 + m * 60 + s) / 3600 :=
    Int.fdiv_eq_ediv _ (by norm_num)
  have e2 : (h * 3600 + m * 60 + s).fdiv 60 = (h * 3600 + m * 60 + s) / 60 :=
    Int.fdiv_eq_ediv _ (by norm_num)
  show ((h * 3600 + m * 60 + s).fdiv 3600,
      (h * 3600 + m * 60 + s).fdiv 60 % 60,
      (h * 3600 + m * 60 + s) % 60) = (h, m, s)
  rw [e1, e2]
  refine Prod.ext ?_ (Prod.ext ?_ ?_) <;> simp <;> omega

/-- Witness for C9 at `(h, m, s) = (25, 30, 45)`. -/
theorem c9_total_seconds_round_trip_witness :
    get_time_hms_fields (get_total_seconds 25 30 45) = (25, 30, 45) :=
  c9_total_seconds_round_trip 25 30 45 (by decide) (by decide) (by decide) (by decide) (by decide)

/-! ### Claim C1: behaviour on an Interval Store with no joinable rows -/

/-- Claim C1 counterexample: a store whose one log row matches no
category has zero joinable intervals, yet `get_log_df` and the summaries
built on it do not return an empty sequence — they raise (`KeyError`
from accessing a column of the empty DataFrame). -/
theorem c1_empty_join_counterexample :
    joinedRows (Store.mk [] [LogRow.mk 1 1 0 0]) = [] ∧
    get_log_df (Store.mk [] [LogRow.mk 1 1 0 0]) = Except.error DFError.keyError ∧
    get_df_log_summary (Store.mk [] [LogRow.mk 1 1 0 0]) = Except.error DFError.keyError ∧
    get_df_log_summary_weeks (Store.mk [] [LogRow.mk 1 1 0 0]) = Except.error DFError.keyError ∧
    get_df_log_summary_months (Store.mk [] [LogRow.mk 1 1 0 0]) = Except.error DFError.keyError ∧
    get_df_summary 19730 7 (Store.mk [] [LogRow.mk 1 1 0 0]) = Except.error DFError.keyError := by
  refine ⟨rfl, rfl, rfl, rfl, rfl, rfl⟩

/-- Claim C1 amended: on every store state with zero intervals or zero
joinable intervals, `get_log_df` and each summary built on it raise a
`KeyError` instead of returning an empty sequence. -/
theorem c1_empty_join_amended (s : Store) (today days : Int)
    (h : joinedRows s = []) :
    get_log_df s = Except.error DFError.keyError ∧
    get_df_log_summary s = Except.error DFError.keyError ∧
    get_df_log_summary_weeks s = Except.error DFError.keyError ∧
    get_df_log_summary_months s = Except.error DFError.keyError ∧
    get_df_summary today days s = Except.error DFError.keyError := by
  have hl : get_log_df s = Except.error DFError.keyError := by
    unfold get_log_df
    rw [if_pos]
    simp [h]
  refine ⟨hl, ?_, ?_, ?_, ?_⟩
  · unfold get_df_log_summary; rw [hl]; rfl
  · unfold get_df_log_summary_weeks; rw [hl]; rfl
  · unfold get_df_log_summary_months; rw [hl]; rfl
  · unfold get_df_summary; rw [hl]; rfl

/-- Witness for the amended C1 at the store with no rows at all. -/
theorem c1_empty_join_amended_witness :
    joinedRows (Store.mk [] []) = [] ∧
    (get_log_df (Store.mk [] []) = Except.error DFError.keyError ∧
     get_df_log_summary (Store.mk [] []) = Except.error DFError.keyError ∧
     get_df_log_summary_weeks (Store.mk [] []) = Except.error DFError.keyError ∧
     get_df_log_summary_months (Store.mk [] []) = Except.error DFError.keyError ∧
     get_df_summary 0 0 (Store.mk [] []) = Except.error DFError.keyError) :=
  ⟨rfl, c1_empty_join_amended (Store.mk [] []) 0 0 rfl⟩

/-! ### Claim C2: tolerance of an incomplete weekday set -/

/-- The weekday names covered by the joinable intervals of a store. -/
def coveredWeekdays (s : Store) : List String :=
  (joinedRows s).map fun r => dayName (dateOf r.start)

/-- Claim C2 counterexample: a store whose single log row is dangling
covers fewer than all seven weekdays (none at all), and `daily_summary`
and `windowed_summary` on it do raise rather than return the populated
buckets. -/
theorem c2_incomplete_weekdays_counterexample :
    dayNamesList.all
      (fun w => (coveredWeekdays (Store.mk [CategoryRow.mk 1 "A" "g"] [LogRow.mk 1 2 0 3600])).contains w)
      = false ∧
    get_df_log_summary (Store.mk [CategoryRow.mk 1 "A" "g"] [LogRow.mk 1 2 0 3600]) =
      Except.error DFError.keyError ∧
    get_df_summary 19730 7 (Store.mk [CategoryRow.mk 1 "A" "g"] [LogRow.mk 1 2 0 3600]) =
      Except.error DFError.keyError := by
  refine ⟨rfl, rfl, rfl⟩

/-- The reorder step of the daily summary really does fail when a
weekday is missing from the covered set. -/
lemma reorder_fails_of_incomplete {s : Store}
    (hinc : dayNamesList.all (fun w => (coveredWeekdays s).contains w) = false) :
    ∃ msg, reorderWeekdayCats
      ((dailyBuckets (enrichRows (joinedRows s))).map fun r => r.dayOfWeek) = .error msg := by
  rw [List.all_eq_false] at hinc
  obtain ⟨w, hw, hcontains⟩ := hinc
  have hmem : w ∉ coveredWeekdays s := by
    intro hx
    exact hcontains (by simp [List.contains, List.elem_eq_mem, hx])
  have hsub : ∀ b ∈ (dailyBuckets (enrichRows (joinedRows s))).map (fun r => r.dayOfWeek),
      b ∈ coveredWeekdays s := by
    intro b hb
    rw [List.mem_map] at hb
    obtain ⟨dr, hdr, hdrb⟩ := hb
    simp only [dailyBuckets, List.mem_map] at hdr
    obtain ⟨k, hk, hkdr⟩ := hdr
    simp only [groupKeysDW, mem_dedupAdj, mem_sortBy, List.mem_map] at hk
    obtain ⟨er, her, hker⟩ := hk
    simp only [enrichRows, List.mem_map] at her
    obtain ⟨jr, hjr, hjrer⟩ := her
    have h1 : dr.dayOfWeek = k.2 := by rw [← hkdr]
    have h2 : k = (er.date, er.dayOfWeek) := hker.symm
    have h3 : er.dayOfWeek = dayName (dateOf jr.start) := by rw [← hjrer]
    refine List.mem_map.mpr ⟨jr, hjr, ?_⟩
    subst hdrb
    rw [h1, h2]
    exact h3.symm
  have hvc : ((dailyBuckets (enrichRows (joinedRows s))).map (fun r => r.dayOfWeek)).contains w
      = false := by
    simp only [List.contains, List.elem_eq_mem, decide_eq_false_iff_not]
    exact fun hx => hmem (hsub w hx)
  have hall : dayNamesList.all
      (fun w' => ((dailyBuckets (enrichRows (joinedRows s))).map
        (fun r => r.dayOfWeek)).contains w') = false :=
    List.all_eq_false.mpr ⟨w, hw, by simp only [hvc]; decide⟩
  unfold reorderWeekdayCats
  rw [hall]
  simp only [Bool.false_and, Bool.false_eq_true, if_false]
  exact ⟨_, rfl⟩

/-- Claim C2 amended: for every store with at least one joinable interval
whose intervals cover fewer than all seven weekdays, the reorder of the
fixed Monday-to-Sunday categorical order fails, the failure is caught
internally, `daily_summary` and `windowed_summary` do not raise, and
every populated bucket is still returned (windowed, within its date
window). -/
theorem c2_incomplete_weekdays_amended (s : Store) (today days : Int)
    (hne : joinedRows s ≠ [])
    (hinc : dayNamesList.all (fun w => (coveredWeekdays s).contains w) = false) :
    (∃ msg, reorderWeekdayCats
      ((dailyBuckets (enrichRows (joinedRows s))).map fun r => r.dayOfWeek) = .error msg) ∧
    get_df_log_summary s = .ok (dailyBuckets (enrichRows (joinedRows s))) ∧
    get_df_summary today days s =
      .ok (windowFilter today days (plotBuckets (enrichRows (joinedRows s)))) :=
  ⟨reorder_fails_of_incomplete hinc, get_df_log_summary_ok hne, get_df_summary_ok today days hne⟩

/-- Witness for the amended C2: one joinable interval, covering only
Monday 2024-01-01. -/
theorem c2_incomplete_weekdays_amended_witness :
    joinedRows (Store.mk [CategoryRow.mk 1 "A" "g"] [LogRow.mk 1 1 1704099600 1704105000]) ≠ [] ∧
    dayNamesList.all
      (fun w => (coveredWeekdays
        (Store.mk [CategoryRow.mk 1 "A" "g"] [LogRow.mk 1 1 1704099600 1704105000])).contains w)
      = false ∧
    ((∃ msg, reorderWeekdayCats
      ((dailyBuckets (enrichRows (joinedRows
        (Store.mk [CategoryRow.mk 1 "A" "g"] [LogRow.mk 1 1 1704099600 1704105000])))).map
          fun r => r.dayOfWeek) = .error msg) ∧
    get_df_log_summary (Store.mk [CategoryRow.mk 1 "A" "g"] [LogRow.mk 1 1 1704099600 1704105000]) =
      .ok (dailyBuckets (enrichRows (joinedRows
        (Store.mk [CategoryRow.mk 1 "A" "g"] [LogRow.mk 1 1 1704099600 1704105000])))) ∧
    get_df_summary 19723 9 (Store.mk [CategoryRow.mk 1 "A" "g"] [LogRow.mk 1 1 1704099600 1704105000]) =
      .ok (windowFilter 19723 9 (plotBuckets (enrichRows (joinedRows
        (Store.mk [CategoryRow.mk 1 "A" "g"] [LogRow.mk 1 1 1704099600 1704105000])))))) :=
  ⟨by decide, by decide,
    c2_incomplete_weekdays_amended _ 19723 9 (by decide) (by decide)⟩

/-! ### Claim C3: daily grouping by (date, weekday) with summed durations -/

lemma daily_two_rows_one_date (d s1 e1 s2 e2 : Int)
    (h1 : dateOf s1 = d) (h2 : dateOf s2 = d) :
    dailyBuckets (enrichRows [JoinedRow.mk 1 "A" "gA" s1 e1, JoinedRow.mk 2 "B" "gB" s2 e2]) =
      [DailyRow.mk d (dayName d) (get_time_hms ((e1 - s1) + (e2 - s2)))] := by
  show dailyBuckets
      [EnrichedRow.mk 1 "A" "gA" s1 e1 (e1 - s1) (dateOf s1) (dayName (dateOf s1)) (e1 - s1),
       EnrichedRow.mk 2 "B" "gB" s2 e2 (e2 - s2) (dateOf s2) (dayName (dateOf s2)) (e2 - s2)] = _
  rw [h1, h2]
  simp [dailyBuckets, groupKeysDW, sortBy, insertBy, dedupAdj, sumSeconds, pairLe]

/-- Claim C3: `daily_summary` groups enriched intervals by (date of
start, weekday name) and sums integer-second durations per group,
formatting with the unrestricted formatter: two intervals of two
activities within one calendar date yield exactly one row for that date
whose total is the sum of both durations, and the single interval
(A, 2024-01-01T09:00, 2024-01-01T10:30) yields exactly
[(2024-01-01, "Monday", "01:30:00")]. -/
theorem c3_daily_summary_single_date (d s1 e1 s2 e2 : Int)
    (h1 : dateOf s1 = d) (h2 : dateOf s2 = d) :
    get_df_log_summary (Store.mk [CategoryRow.mk 1 "A" "gA", CategoryRow.mk 2 "B" "gB"]
        [LogRow.mk 1 1 s1 e1, LogRow.mk 2 2 s2 e2]) =
      .ok [DailyRow.mk d (dayName d) (get_time_hms ((e1 - s1) + (e2 - s2)))] ∧
    get_df_log_summary (Store.mk [CategoryRow.mk 1 "A" "g"]
        [LogRow.mk 1 1 1704099600 1704105000]) =
      .ok [DailyRow.mk 19723 "Monday" "01:30:00"] := by
  constructor
  · have hjoin : joinedRows (Store.mk [CategoryRow.mk 1 "A" "gA", CategoryRow.mk 2 "B" "gB"]
        [LogRow.mk 1 1 s1 e1, LogRow.mk 2 2 s2 e2]) =
        [JoinedRow.mk 1 "A" "gA" s1 e1, JoinedRow.mk 2 "B" "gB" s2 e2] := rfl
    have hne : joinedRows (Store.mk [CategoryRow.mk 1 "A" "gA", CategoryRow.mk 2 "B" "gB"]
        [LogRow.mk 1 1 s1 e1, LogRow.mk 2 2 s2 e2]) ≠ [] := by
      rw [hjoin]
      exact List.cons_ne_nil _ _
    rw [get_df_log_summary_ok hne, hjoin, daily_two_rows_one_date d s1 e1 s2 e2 h1 h2]
  · rfl

/-- Witness for C3: two intervals on Monday 2024-01-01, 09:00–10:30 for
activity A and 11:00–12:00 for activity B. -/
theorem c3_daily_summary_single_date_witness :
    dateOf 1704099600 = 19723 ∧ dateOf 1704106800 = 19723 ∧
    (get_df_log_summary (Store.mk [CategoryRow.mk 1 "A" "gA", CategoryRow.mk 2 "B" "gB"]
        [LogRow.mk 1 1 1704099600 1704105000, LogRow.mk 2 2 1704106800 1704110400]) =
      .ok [DailyRow.mk 19723 (dayName 19723)
        (get_time_hms ((1704105000 - 1704099600) + (1704110400 - 1704106800)))] ∧
    get_df_log_summary (Store.mk [CategoryRow.mk 1 "A" "g"]
        [LogRow.mk 1 1 1704099600 1704105000]) =
      .ok [DailyRow.mk 19723 "Monday" "01:30:00"]) :=
  ⟨by decide, by decide,
    c3_daily_summary_single_date 19723 1704099600 1704105000 1704106800 1704110400
      (by decide) (by decide)⟩

/-! ### Claim C4: week_start bucketing -/

lemma dateOf_sub_days (t k : Int) : dateOf (t - 86400 * k) = dateOf t - k := by
  unfold dateOf
  rw [Int.fdiv_eq_ediv _ (by norm_num : (0 : Int) ≤ 86400),
    Int.fdiv_eq_ediv _ (by norm_num : (0 : Int) ≤ 86400)]
  omega

lemma weekStartOf_eq (t : Int) :
    weekStartOf t = dateOf t - weekdayIdx (dateOf t) := by
  unfold weekStartOf
  rw [dateOf_sub_days]

lemma weekdayIdx_weekStart (d : Int) : weekdayIdx (d - weekdayIdx d) = 0 := by
  unfold weekdayIdx
  omega

lemma weekdayIdx_of_dayName_wednesday {d : Int} (h : dayName d = "Wednesday") :
    weekdayIdx d = 2 := by
  unfold dayName at h
  have hcases : weekdayIdx d = 0 ∨ weekdayIdx d = 1 ∨ weekdayIdx d = 2 ∨ weekdayIdx d = 3 ∨
      weekdayIdx d = 4 ∨ weekdayIdx d = 5 ∨ weekdayIdx d = 6 := by
    unfold weekdayIdx
    omega
  rcases hcases with h' | h' | h' | h' | h' | h' | h' <;> rw [h'] at h ⊢ <;>
    first
      | rfl
      | exact absurd h (by decide)

/-- Claim C4 counterexample: an interval starting on Wednesday 2024-01-03
(day 19725) is bucketed by `weekly_summary` under day 19723, the Monday
TWO days prior, not the claimed three days prior. -/
theorem c4_wednesday_counterexample :
    dayName 19725 = "Wednesday" ∧
    get_df_log_summary_weeks (Store.mk [CategoryRow.mk 1 "A" "g"]
      [LogRow.mk 1 1 (19725 * 86400 + 3600) (19725 * 86400 + 7200)]) =
      Except.ok [WeekRow.mk 19723 "Monday" "01:00:00"] ∧
    (19723 : Int) = 19725 - 2 ∧ (19723 : Int) ≠ 19725 - 3 :=
  ⟨by decide, rfl, by decide, by decide⟩

/-- Claim C4 amended: the `weekly_summary` bucket key of every interval
equals the interval's start date minus its weekday index (Monday = 0)
days — the Monday on or before the start date — so an interval starting
on a Wednesday is bucketed under the Monday TWO days prior, and the
label column of every output row is the constant string "Monday". -/
theorem c4_week_start_amended (s : Store) (rows : List WeekRow)
    (h : get_df_log_summary_weeks s = .ok rows) :
    (∀ r ∈ rows, r.day = "Monday" ∧ weekdayIdx r.week_start = 0) ∧
    (∀ l ∈ joinedRows s,
      weekStartOf l.start = dateOf l.start - weekdayIdx (dateOf l.start) ∧
      weekStartOf l.start ∈ rows.map (fun r => r.week_start) ∧
      (dayName (dateOf l.start) = "Wednesday" →
        weekStartOf l.start = dateOf l.start - 2)) := by
  have hne : joinedRows s ≠ [] := by
    intro hE
    have hlog : get_log_df s = Except.error DFError.keyError := by
      unfold get_log_df
      rw [if_pos]
      simp [hE]
    unfold get_df_log_summary_weeks at h
    rw [hlog] at h
    exact absurd h (by simp [Except.map])
  rw [get_df_log_summary_weeks_ok hne] at h
  have hrows := (Except.ok.inj h).symm
  subst hrows
  constructor
  · intro r hr
    rw [List.mem_map] at hr
    obtain ⟨k, hk, hkr⟩ := hr
    refine ⟨by rw [← hkr], ?_⟩
    have hweek : r.week_start = k := by rw [← hkr]
    rw [hweek]
    rw [mem_dedupAdj, mem_sortBy, List.mem_map] at hk
    obtain ⟨p, hp, hpk⟩ := hk
    rw [List.mem_map] at hp
    obtain ⟨er, her, herp⟩ := hp
    have : k = weekStartOf er.start := by rw [← hpk, ← herp]
    rw [this, weekStartOf_eq]
    exact weekdayIdx_weekStart _
  · intro l hl
    refine ⟨weekStartOf_eq l.start, ?_, ?_⟩
    · refine List.mem_map.mpr ⟨_, List.mem_map.mpr ⟨weekStartOf l.start, ?_, rfl⟩, rfl⟩
      rw [mem_dedupAdj, mem_sortBy, List.mem_map]
      refine ⟨(weekStartOf l.start, l.stop - l.start), ?_, rfl⟩
      rw [List.mem_map]
      exact ⟨_, List.mem_map.mpr ⟨l, hl, rfl⟩, rfl⟩
    · intro hwed
      rw [weekStartOf_eq, weekdayIdx_of_dayName_wednesday hwed]

/-- Witness for the amended C4: one interval on Wednesday 2024-01-03. -/
theorem c4_week_start_amended_witness :
    get_df_log_summary_weeks (Store.mk [CategoryRow.mk 1 "A" "g"]
        [LogRow.mk 1 1 (19725 * 86400 + 3600) (19725 * 86400 + 7200)]) =
      .ok [WeekRow.mk 19723 "Monday" "01:00:00"] ∧
    ((∀ r ∈ [WeekRow.mk 19723 "Monday" "01:00:00"],
        r.day = "Monday" ∧ weekdayIdx r.week_start = 0) ∧
     (∀ l ∈ joinedRows (Store.mk [CategoryRow.mk 1 "A" "g"]
         [LogRow.mk 1 1 (19725 * 86400 + 3600) (19725 * 86400 + 7200)]),
       weekStartOf l.start = dateOf l.start - weekdayIdx (dateOf l.start) ∧
       weekStartOf l.start ∈ [WeekRow.mk 19723 "Monday" "01:00:00"].map (fun r => r.week_start) ∧
       (dayName (dateOf l.start) = "Wednesday" →
         weekStartOf l.start = dateOf l.start - 2))) :=
  ⟨rfl, c4_week_start_amended _ [WeekRow.mk 19723 "Monday" "01:00:00"] rfl⟩

/-! ### Claim C5: the date window of `get_df_summary` -/

/-- Claim C5: `windowed_summary` filters buckets by date inclusively:
`days = 7` keeps exactly the buckets with date ≥ `days_ago(7)` (a bucket
dated exactly `days_ago(7)` is kept, one dated a day earlier is
dropped), `days = 30` keeps exactly those with date ≥ `days_ago(30)`,
and any other `days` value returns every bucket unfiltered; `days_ago`
is today minus exactly that many calendar days. -/
theorem c5_windowed_filter (today days : Int) (s : Store) (hne : joinedRows s ≠ []) :
    last_seven_days today = today - 7 ∧
    last_thirty_days today = today - 30 ∧
    (days = 7 → get_df_summary today days s =
      .ok ((plotBuckets (enrichRows (joinedRows s))).filter
        fun r => last_seven_days today ≤ r.date)) ∧
    (days = 30 → get_df_summary today days s =
      .ok ((plotBuckets (enrichRows (joinedRows s))).filter
        fun r => last_thirty_days today ≤ r.date)) ∧
    (days ≠ 7 → days ≠ 30 → get_df_summary today days s =
      .ok (plotBuckets (enrichRows (joinedRows s)))) ∧
    (∀ r ∈ plotBuckets (enrichRows (joinedRows s)),
      (r.date = today - 7 →
        r ∈ (plotBuckets (enrichRows (joinedRows s))).filter
          fun x => last_seven_days today ≤ x.date) ∧
      (r.date = today - 7 - 1 →
        r ∉ (plotBuckets (enrichRows (joinedRows s))).filter
          fun x => last_seven_days today ≤ x.date) ∧
      (r.date = today - 30 →
        r ∈ (plotBuckets (enrichRows (joinedRows s))).filter
          fun x => last_thirty_days today ≤ x.date) ∧
      (r.date = today - 30 - 1 →
        r ∉ (plotBuckets (enrichRows (joinedRows s))).filter
          fun x => last_thirty_days today ≤ x.date)) := by
  refine ⟨rfl, rfl, ?_, ?_, ?_, ?_⟩
  · intro h7
    rw [get_df_summary_ok today days hne]
    unfold windowFilter
    rw [if_pos h7]
  · intro h30
    rw [get_df_summary_ok today days hne]
    unfold windowFilter
    rw [if_neg (by omega), if_pos h30]
  · intro h7 h30
    rw [get_df_summary_ok today days hne]
    unfold windowFilter
    rw [if_neg h7, if_neg h30]
  · intro r hr
    refine ⟨?_, ?_, ?_, ?_⟩
    · intro hdate
      rw [List.mem_filter]
      exact ⟨hr, by simp [last_seven_days, hdate]⟩
    · intro hdate hmem
      rw [List.mem_filter] at hmem
      have := of_decide_eq_true hmem.2
      unfold last_seven_days at this
      omega
    · intro hdate
      rw [List.mem_filter]
      exact ⟨hr, by simp [last_thirty_days, hdate]⟩
    · intro hdate hmem
      rw [List.mem_filter] at hmem
      have := of_decide_eq_true hmem.2
      unfold last_thirty_days at this
      omega

/-- Witness for C5 at a one-interval store, `today = 19730`, `days = 9`
(no-filter branch). -/
theorem c5_windowed_filter_witness :
    joinedRows (Store.mk [CategoryRow.mk 1 "A" "g"] [LogRow.mk 1 1 1704099600 1704105000]) ≠ [] ∧
    (last_seven_days 19730 = 19730 - 7 ∧
    last_thirty_days 19730 = 19730 - 30 ∧
    ((9 : Int) = 7 → get_df_summary 19730 9
        (Store.mk [CategoryRow.mk 1 "A" "g"] [LogRow.mk 1 1 1704099600 1704105000]) =
      .ok ((plotBuckets (enrichRows (joinedRows
        (Store.mk [CategoryRow.mk 1 "A" "g"] [LogRow.mk 1 1 1704099600 1704105000])))).filter
        fun r => last_seven_days 19730 ≤ r.date)) ∧
    ((9 : Int) = 30 → get_df_summary 19730 9
        (Store.mk [CategoryRow.mk 1 "A" "g"] [LogRow.mk 1 1 1704099600 1704105000]) =
      .ok ((plotBuckets (enrichRows (joinedRows
        (Store.mk [CategoryRow.mk 1 "A" "g"] [LogRow.mk 1 1 1704099600 1704105000])))).filter
        fun r => last_thirty_days 19730 ≤ r.date)) ∧
    ((9 : Int) ≠ 7 → (9 : Int) ≠ 30 → get_df_summary 19730 9
        (Store.mk [CategoryRow.mk 1 "A" "g"] [LogRow.mk 1 1 1704099600 1704105000]) =
      .ok (plotBuckets (enrichRows (joinedRows
        (Store.mk [CategoryRow.mk 1 "A" "g"] [LogRow.mk 1 1 1704099600 1704105000]))))) ∧
    (∀ r ∈ plotBuckets (enrichRows (joinedRows
        (Store.mk [CategoryRow.mk 1 "A" "g"] [LogRow.mk 1 1 1704099600 1704105000]))),
      (r.date = 19730 - 7 →
        r ∈ (plotBuckets (enrichRows (joinedRows
          (Store.mk [CategoryRow.mk 1 "A" "g"] [LogRow.mk 1 1 1704099600 1704105000])))).filter
          fun x => last_seven_days 19730 ≤ x.date) ∧
      (r.date = 19730 - 7 - 1 →
        r ∉ (plotBuckets (enrichRows (joinedRows
          (Store.mk [CategoryRow.mk 1 "A" "g"] [LogRow.mk 1 1 1704099600 1704105000])))).filter
          fun x => last_seven_days 19730 ≤ x.date) ∧
      (r.date = 19730 - 30 →
        r ∈ (plotBuckets (enrichRows (joinedRows
          (Store.mk [CategoryRow.mk 1 "A" "g"] [LogRow.mk 1 1 1704099600 1704105000])))).filter
          fun x => last_thirty_days 19730 ≤ x.date) ∧
      (r.date = 19730 - 30 - 1 →
        r ∉ (plotBuckets (enrichRows (joinedRows
          (Store.mk [CategoryRow.mk 1 "A" "g"] [LogRow.mk 1 1 1704099600 1704105000])))).filter
          fun x => last_thirty_days 19730 ≤ x.date))) :=
  ⟨by decide, c5_windowed_filter 19730 9
    (Store.mk [CategoryRow.mk 1 "A" "g"] [LogRow.mk 1 1 1704099600 1704105000]) (by decide)⟩

/-! ### Claim C6: inner-join semantics and deletion of activities -/

lemma joinedRows_middle_dangling (cat : List CategoryRow) (pre post : List LogRow) (l : LogRow)
    (h : ∀ c ∈ cat, c.id ≠ l.taskid) :
    joinedRows (Store.mk cat (pre ++ l :: post)) = joinedRows (Store.mk cat (pre ++ post)) := by
  unfold joinedRows
  simp only [List.flatMap_append, List.flatMap_cons]
  have hfil : (cat.filter fun c => l.taskid == c.id) = [] := by
    rw [List.filter_eq_nil_iff]
    intro c hc
    simp only [beq_iff_eq]
    exact fun e => h c hc e.symm
  rw [hfil]
  simp

lemma get_log_df_congr {s t : Store} (h : joinedRows s = joinedRows t) :
    get_log_df s = get_log_df t := by
  unfold get_log_df
  rw [h]

lemma get_df_log_summary_congr {s t : Store} (h : joinedRows s = joinedRows t) :
    get_df_log_summary s = get_df_log_summary t := by
  unfold get_df_log_summary
  rw [get_log_df_congr h]

lemma get_df_log_summary_weeks_congr {s t : Store} (h : joinedRows s = joinedRows t) :
    get_df_log_summary_weeks s = get_df_log_summary_weeks t := by
  unfold get_df_log_summary_weeks
  rw [get_log_df_congr h]

lemma get_df_log_summary_months_congr {s t : Store} (h : joinedRows s = joinedRows t) :
    get_df_log_summary_months s = get_df_log_summary_months t := by
  unfold get_df_log_summary_months
  rw [get_log_df_congr h]

lemma get_df_summary_congr (today days : Int) {s t : Store}
    (h : joinedRows s = joinedRows t) :
    get_df_summary today days s = get_df_summary today days t := by
  unfold get_df_summary
  rw [get_log_df_congr h]

/-- Claim C6: an interval whose activity reference matches no existing
activity id is absent from the enriched log and from every summary
(inner-join semantics), leaving all other buckets' totals unchanged; in
particular, after `delete_activity` removes the only categories matching
an interval's reference, that interval disappears from all subsequent
summaries. -/
theorem c6_inner_join_dangling (cat : List CategoryRow) (pre post : List LogRow) (l : LogRow)
    (today days : Int) (a g : String) :
    ((∀ c ∈ cat, c.id ≠ l.taskid) →
      joinedRows (Store.mk cat (pre ++ l :: post)) = joinedRows (Store.mk cat (pre ++ post)) ∧
      get_log_df (Store.mk cat (pre ++ l :: post)) = get_log_df (Store.mk cat (pre ++ post)) ∧
      get_df_log_summary (Store.mk cat (pre ++ l :: post)) =
        get_df_log_summary (Store.mk cat (pre ++ post)) ∧
      get_df_log_summary_weeks (Store.mk cat (pre ++ l :: post)) =
        get_df_log_summary_weeks (Store.mk cat (pre ++ post)) ∧
      get_df_log_summary_months (Store.mk cat (pre ++ l :: post)) =
        get_df_log_summary_months (Store.mk cat (pre ++ post)) ∧
      get_df_summary today days (Store.mk cat (pre ++ l :: post)) =
        get_df_summary today days (Store.mk cat (pre ++ post))) ∧
    ((∀ c ∈ cat, c.id = l.taskid → c.activity = a ∧ c.grouping = g) →
      joinedRows (delete_activity a g (Store.mk cat (pre ++ l :: post))) =
        joinedRows (delete_activity a g (Store.mk cat (pre ++ post))) ∧
      get_df_log_summary (delete_activity a g (Store.mk cat (pre ++ l :: post))) =
        get_df_log_summary (delete_activity a g (Store.mk cat (pre ++ post))) ∧
      get_df_summary today days (delete_activity a g (Store.mk cat (pre ++ l :: post))) =
        get_df_summary today days (delete_activity a g (Store.mk cat (pre ++ post)))) := by
  constructor
  · intro hd
    have hj := joinedRows_middle_dangling cat pre post l hd
    exact ⟨hj, get_log_df_congr hj, get_df_log_summary_congr hj,
      get_df_log_summary_weeks_congr hj, get_df_log_summary_months_congr hj,
      get_df_summary_congr today days hj⟩
  · intro hdel
    have hd : ∀ c ∈ cat.filter (fun c => !(c.activity == a && c.grouping == g)),
        c.id ≠ l.taskid := by
      intro c hc he
      rw [List.mem_filter] at hc
      obtain ⟨hcc, hpc⟩ := hc
      have hag := hdel c hcc he
      simp [hag.1, hag.2] at hpc
    have hj := joinedRows_middle_dangling
      (cat.filter (fun c => !(c.activity == a && c.grouping == g))) pre post l hd
    exact ⟨hj, get_df_log_summary_congr hj, get_df_summary_congr today days hj⟩

/-- Witness for C6: a category list with one activity, a dangling log
row with a different task id, and a deletion matching that activity. -/
theorem c6_inner_join_dangling_witness :
    ((∀ c ∈ [CategoryRow.mk 1 "A" "g"], c.id ≠ (LogRow.mk 5 2 0 3600).taskid) ∧
     (∀ c ∈ [CategoryRow.mk 1 "A" "g"],
        c.id = (LogRow.mk 5 2 0 3600).taskid → c.activity = "A" ∧ c.grouping = "g")) ∧
    (joinedRows (Store.mk [CategoryRow.mk 1 "A" "g"]
        ([] ++ LogRow.mk 5 2 0 3600 :: [LogRow.mk 1 1 0 3600])) =
      joinedRows (Store.mk [CategoryRow.mk 1 "A" "g"] ([] ++ [LogRow.mk 1 1 0 3600])) ∧
     get_df_log_summary (Store.mk [CategoryRow.mk 1 "A" "g"]
        ([] ++ LogRow.mk 5 2 0 3600 :: [LogRow.mk 1 1 0 3600])) =
      get_df_log_summary (Store.mk [CategoryRow.mk 1 "A" "g"] ([] ++ [LogRow.mk 1 1 0 3600])) ∧
     get_df_summary 19730 7 (delete_activity "A" "g" (Store.mk [CategoryRow.mk 1 "A" "g"]
        ([] ++ LogRow.mk 5 2 0 3600 :: [LogRow.mk 1 1 0 3600]))) =
      get_df_summary 19730 7 (delete_activity "A" "g"
        (Store.mk [CategoryRow.mk 1 "A" "g"] ([] ++ [LogRow.mk 1 1 0 3600])))) := by
  have h := c6_inner_join_dangling [CategoryRow.mk 1 "A" "g"] [] [LogRow.mk 1 1 0 3600]
    (LogRow.mk 5 2 0 3600) 19730 7 "A" "g"
  have h1 := h.1 (by decide)
  have h2 := h.2 (by decide)
  exact ⟨⟨by decide, by decide⟩, h1.1, h1.2.2.1, h2.2.2⟩

end TimeTracker
